import Mathlib

/-!
Shallow embedding of the real-time voice session engine of the Safetybot
repository (src/unnamed/part_000), together with theorems settling the
frozen claims about its specification.

The repository file contains two versions of the same React application:
a script-processor version (lines 1-529) and an audio-worklet version
(lines 530-1212).  Each definition below names the version and line range
it embeds.  Times are modelled as rationals (the code uses seconds as
floating-point numbers, and every constant involved is exactly
representable), audio sources as natural-number identifiers, and the
React state/refs as explicit record fields threaded through the handlers.
-/

namespace Safetybot

/-! ## Playback Scheduler (both versions; lines 354-376 and 993-1017)

On each inbound audio message the code runs
  nextStartTime := max nextStartTime outputCtx.currentTime;
  source.start nextStartTime;
  nextStartTime := nextStartTime + audioBuffer.duration
so a chunk is characterised by the device clock reading at processing
time and its decoded duration. -/

structure InboundAudio where
  currentTime : ℚ
  duration : ℚ
deriving DecidableEq

instance : Inhabited InboundAudio := ⟨⟨0, 0⟩⟩

/-- Runs the scheduling loop of the audio branch of `onmessage` over a list
of inbound chunks, returning the list of scheduled start times and the
final value of `nextStartTimeRef`. -/
def runScheduler (nextStartTime : ℚ) : List InboundAudio → List ℚ × ℚ
  | [] => ([], nextStartTime)
  | c :: rest =>
    let start := max nextStartTime c.currentTime
    let r := runScheduler (start + c.duration) rest
    (start :: r.1, r.2)

/-- State owned by the playback scheduler: the cursor `nextStartTimeRef`,
the pending set `audioSourcesRef`, and (to observe the effect of calling
`source.stop()`) the identifiers of the sources stopped so far. -/
structure SchedState where
  nextStartTime : ℚ
  audioSources : List ℕ
  stoppedSources : List ℕ
deriving DecidableEq

/-- The `interrupted` branch of `onmessage` (lines 299-303, resp. 894-900):
stop every pending source, clear the pending set, reset the cursor to 0. -/
def handleInterrupted (st : SchedState) : SchedState :=
  { nextStartTime := 0
    audioSources := []
    stoppedSources := st.stoppedSources ++ st.audioSources }

/-! ## Capture Pipeline sample conversion (lines 274-286 and 847-866)

Both capture paths run `int16[i] = inputData[i] * 32768` where `int16` is
a JavaScript `Int16Array`.  Storing into an `Int16Array` applies the
ECMAScript `ToInt16` conversion: truncate toward zero, reduce modulo
2^16, and re-centre into [-32768, 32767]. -/

/-- Truncation toward zero of a rational, as ECMAScript's `ToIntegerOrInfinity`
step performs on a finite number. -/
def ratTrunc (q : ℚ) : ℤ := if 0 ≤ q then ⌊q⌋ else ⌈q⌉

/-- ECMAScript `ToInt16` applied to an integer: reduce modulo 2^16, then
re-centre into [-32768, 32767].  (`%` on `ℤ` is `Int.emod`, which is
non-negative for a positive modulus, matching the spec's "modulo".) -/
def toInt16 (n : ℤ) : ℤ :=
  let m := n % 65536
  if 32768 ≤ m then m - 65536 else m

/-- The conversion the capture pipeline actually applies to one
floating-point sample `x`: `ToInt16 (trunc (x * 32768))`. -/
def floatToInt16Sample (x : ℚ) : ℤ := toInt16 (ratTrunc (x * 32768))

/-- Modelled from the claim's words, for comparison with
`floatToInt16Sample`: "x*32768 clamped to the range [-32768, 32767]",
i.e. a saturating conversion. -/
def specSaturatedSample (x : ℚ) : ℤ :=
  max (-32768) (min 32767 (ratTrunc (x * 32768)))

/-! ## Turn Aggregator (worklet version lines 913-940; same trim logic in
the script-processor version lines 307-311)

`String.prototype.trim` removes the ECMAScript WhiteSpace and
LineTerminator code points from both ends; `if (fullInput)` then tests
the trimmed string for non-emptiness. -/

/-- The ECMAScript WhiteSpace ∪ LineTerminator character class used by
`String.prototype.trim`: TAB, LF, VT, FF, CR, SP, NBSP, ZWNBSP, LS, PS
and the Unicode Space_Separator code points. -/
def isJsWhitespace (c : Char) : Bool :=
  let n := c.toNat
  n == 9 || n == 10 || n == 11 || n == 12 || n == 13 || n == 32 ||
  n == 0xA0 || n == 0x1680 || (decide (0x2000 ≤ n) && decide (n ≤ 0x200A)) ||
  n == 0x2028 || n == 0x2029 || n == 0x202F || n == 0x205F ||
  n == 0x3000 || n == 0xFEFF

/-- JavaScript `String.prototype.trim`: drop leading and trailing
whitespace characters. -/
def jsTrim (s : String) : String :=
  ⟨((s.data.dropWhile isJsWhitespace).reverse.dropWhile isJsWhitespace).reverse⟩

/-- One entry of the citation list attached to an assistant turn
(`{ uri, title }` in the code). -/
structure GroundingRef where
  uri : String
  title : String
deriving DecidableEq

/-- An inbound grounding chunk: the code inspects `chunk.maps` and
`chunk.web` and maps anything else to `null`. -/
inductive GroundingChunk where
  | maps (uri title : String)
  | web (uri title : String)
  | other
deriving DecidableEq

/-- The mapping applied to each grounding chunk at turn completion
(lines 922-928): `maps`/`web` chunks become a `{uri, title}` reference,
anything else becomes `null` and is filtered out. -/
def chunkToRef : GroundingChunk → Option GroundingRef
  | .maps uri title => some ⟨uri, title⟩
  | .web uri title => some ⟨uri, title⟩
  | .other => none

inductive Speaker where
  | user
  | bot
  | system
deriving DecidableEq

/-- One transcript entry, as in src/types.ts: speaker, text, and an
optional citation list (absent is `undefined` in the code). -/
structure Transcript where
  speaker : Speaker
  text : String
  groundingChunks : Option (List GroundingRef)
deriving DecidableEq

/-- The turn aggregator's accumulators: `inputTranscriptionRef`,
`outputTranscriptionRef` and `groundingChunksForTurnRef`. -/
structure AggState where
  inputTranscription : String
  outputTranscription : String
  groundingChunksForTurn : List GroundingChunk
deriving DecidableEq

/-- The `turnComplete` branch of `onmessage` (lines 913-940): trim both
accumulators; emit a user turn if the trimmed input is non-empty, then a
bot turn if the trimmed output is non-empty, attaching the mapped
citation list when it is non-empty; then clear all three accumulators.
Returns the emitted transcript entries and the post-state. -/
def handleTurnComplete (st : AggState) : List Transcript × AggState :=
  let fullInput := jsTrim st.inputTranscription
  let fullOutput := jsTrim st.outputTranscription
  let userTurns : List Transcript :=
    if fullInput ≠ "" then [⟨.user, fullInput, none⟩] else []
  let chunks := st.groundingChunksForTurn.filterMap chunkToRef
  let botTurns : List Transcript :=
    if fullOutput ≠ "" then
      [⟨.bot, fullOutput, if chunks ≠ [] then some chunks else none⟩]
    else []
  (userTurns ++ botTurns, ⟨"", "", []⟩)

/-! ## Tool Dispatcher (script-processor version, lines 313-351)

`message.toolCall.functionCalls` is mapped to an array of
`{id, name, response: {result}}` objects; incidents and system
transcript lines are produced as side effects; the whole array is then
sent with one `sendToolResponse` call. -/

/-- The argument fields the handlers read from `fc.args`. -/
structure FunctionCallArgs where
  description : String := ""
  location : String := ""
  recipient : String := ""
  message : String := ""
  team_id : String := ""
deriving DecidableEq

instance : Inhabited FunctionCallArgs := ⟨{}⟩

structure FunctionCall where
  id : String
  name : String
  args : FunctionCallArgs
deriving DecidableEq

instance : Inhabited FunctionCall := ⟨⟨"", "", {}⟩⟩

structure FunctionResponsePayload where
  result : String
deriving DecidableEq

/-- One element of the `functionResponses` array: `{id, name, response}`. -/
structure FunctionResponse where
  id : String
  name : String
  response : FunctionResponsePayload
deriving DecidableEq

instance : Inhabited FunctionResponse := ⟨⟨"", "", ⟨""⟩⟩⟩

/-- An incident record as stored by `setIncidentReports`. -/
structure IncidentReport where
  description : String
  location : String
  timestamp : String
deriving DecidableEq

inductive BotExpression where
  | neutral
  | concerned
  | alert
  | happy
  | focused
deriving DecidableEq

/-- Everything one iteration of the `functionCalls.map` callback produces:
the returned response object, the optional new incident record, the
system transcript line, and the expression set for the call. -/
structure ToolEffect where
  response : FunctionResponse
  newIncident : Option IncidentReport
  sysText : String
  expression : BotExpression
deriving DecidableEq

/-- The body of the `functionCalls.map` callback (lines 314-349), with
`now` standing for `new Date().toISOString()`. -/
def handleFunctionCall (now : String) (fc : FunctionCall) : ToolEffect :=
  if fc.name = "record_safety_incident" then
    { response := ⟨fc.id, fc.name, ⟨"Incident recorded successfully."⟩⟩
      newIncident := some ⟨fc.args.description, fc.args.location, now⟩
      sysText := "Recording incident: \"" ++ fc.args.description ++ "\""
      expression := .concerned }
  else if fc.name = "send_sms_alert" then
    { response := ⟨fc.id, fc.name, ⟨"Alert sent to " ++ fc.args.recipient ++ "."⟩⟩
      newIncident := none
      sysText := "Sending SMS to " ++ fc.args.recipient ++ "..."
      expression := .alert }
  else if fc.name = "mark_team_attendance" then
    { response := ⟨fc.id, fc.name, ⟨"Team " ++ fc.args.team_id ++ " attendance has been marked."⟩⟩
      newIncident := none
      sysText := "Attendance marked for " ++ fc.args.team_id ++ "."
      expression := .happy }
  else if fc.name = "get_weather_update" then
    { response := ⟨fc.id, fc.name, ⟨"The weather at " ++ fc.args.location ++ " is clear, with stable underground temperature."⟩⟩
      newIncident := none
      sysText := "Fetching weather for " ++ fc.args.location ++ "."
      expression := .focused }
  else
    { response := ⟨fc.id, fc.name, ⟨"Action completed."⟩⟩
      newIncident := none
      sysText := "Action: " ++ fc.name
      expression := .neutral }

/-- The four tool names the `switch` statement recognises. -/
def knownToolNames : List String :=
  ["record_safety_incident", "send_sms_alert", "mark_team_attendance", "get_weather_update"]

/-- Observable outcome of processing one `toolCall` message: the batches
passed to `sendToolResponse` (one list entry per outbound call), the
incident store, and the transcript list. -/
structure DispatchResult where
  sentBatches : List (List FunctionResponse)
  incidentReports : List IncidentReport
  transcripts : List Transcript
deriving DecidableEq

/-- The `toolCall` branch of `onmessage` (lines 313-351): map every call
through `handleFunctionCall`, append each produced incident and system
transcript line in order, and send the full `functionResponses` array in
a single `sendToolResponse` operation. -/
def dispatchToolCalls (now : String) (calls : List FunctionCall)
    (incidents : List IncidentReport) (transcripts : List Transcript) : DispatchResult :=
  let effects := calls.map (handleFunctionCall now)
  { sentBatches := [effects.map ToolEffect.response]
    incidentReports := incidents ++ effects.filterMap ToolEffect.newIncident
    transcripts := transcripts ++ effects.map (fun e => ⟨.system, e.sysText, none⟩) }

/-! ## Session State Machine (script-processor version)

`BotStatus` is the enum of src/types.ts.  The session's refs are
modelled as record fields: the `AudioContext`/`MediaStream`/session
handles collapse to booleans recording whether the resource is held. -/

inductive BotStatus where
  | IDLE
  | CONNECTING
  | LISTENING
  | THINKING
  | SPEAKING
  | ERROR
deriving DecidableEq

structure SessionState where
  status : BotStatus
  expression : BotExpression
  error : Option String
  nextStartTime : ℚ
  audioSources : List ℕ
  stoppedSources : List ℕ
  animationFrame : Option ℕ
  sessionOpen : Bool
  mediaStream : Bool
  scriptProcessor : Bool
  inputAudioContext : Bool
  outputAudioContext : Bool
deriving DecidableEq

/-- `stopConversation` (lines 189-227): set status IDLE and expression
neutral, stop and clear all queued audio sources, reset the cursor,
cancel the animation frame, close the session, stop the microphone
stream, disconnect the script processor, and close both audio contexts.
The `error` state variable is not touched. -/
def stopConversation (s : SessionState) : SessionState :=
  { status := .IDLE
    expression := .neutral
    error := s.error
    nextStartTime := 0
    audioSources := []
    stoppedSources := s.stoppedSources ++ s.audioSources
    animationFrame := none
    sessionOpen := false
    mediaStream := false
    scriptProcessor := false
    inputAudioContext := false
    outputAudioContext := false }

/-- The session state on first render: status IDLE, no error, no
resources held. -/
def initialSessionState : SessionState :=
  ⟨.IDLE, .neutral, none, 0, [], [], none, false, false, false, false, false⟩

/-- The failure path of `startConversation` (lines 240-243 and the catch
block at 409-413), executed when acquiring the microphone or opening the
transport throws: set status CONNECTING and clear the error on entry,
then in the catch block set the error message, set status ERROR, and
finally call `stopConversation` — whose first statement sets status back
to IDLE. -/
def startConversationFailure (s : SessionState) (msg : String) : SessionState :=
  let s1 : SessionState := { s with status := .CONNECTING, error := none }
  let s2 : SessionState := { s1 with error := some msg }
  let s3 : SessionState := { s2 with status := .ERROR }
  stopConversation s3

/-- The successive values passed to `setStatus` along the
`startConversation` failure path, in execution order: CONNECTING
(line 242), ERROR (line 411), then IDLE (line 190, inside the
`stopConversation` call at line 412). -/
def startConversationFailureStatuses : List BotStatus :=
  [.CONNECTING, .ERROR, .IDLE]

/-- The `onclose` callback (lines 390-396): if the status is neither IDLE
nor ERROR, set the error message, run `stopConversation`, and set status
ERROR (the last `setStatus` call wins); otherwise do nothing. -/
def handleClose (s : SessionState) : SessionState :=
  if s.status ≠ .IDLE ∧ s.status ≠ .ERROR then
    { stopConversation { s with error := some "Connection lost unexpectedly." } with
        status := .ERROR }
  else s

/-! ## Theorems -/

theorem runScheduler_length (cs : List InboundAudio) (t : ℚ) :
    ((runScheduler t cs).1).length = cs.length := by
  induction cs generalizing t with
  | nil => rfl
  | cons c rest ih => simp [runScheduler, ih]

theorem runScheduler_mono (cs : List InboundAudio) (t : ℚ) (i : ℕ)
    (h : i + 1 < cs.length) :
    ((runScheduler t cs).1).getD i 0 + (cs.getD i default).duration ≤
      ((runScheduler t cs).1).getD (i + 1) 0 := by
  induction cs generalizing t i with
  | nil => simp at h
  | cons c rest ih =>
    cases i with
    | zero =>
      cases rest with
      | nil => simp at h
      | cons c2 rest2 =>
        simp only [runScheduler, List.getD_cons_zero, List.getD_cons_succ]
        exact le_max_left _ _
    | succ j =>
      simp only [runScheduler, List.getD_cons_succ]
      exact ih _ j (by simpa using h)

/-- Claim C1: the playback scheduler starts each chunk at
`max cursor deviceClockNow` and advances the cursor by the chunk's
duration, so every pair of consecutive scheduled starts satisfies
`start[i+1] ≥ start[i] + duration[i]`; and for three chunks of 0.5s,
0.3s, 0.4s arriving back-to-back with the device clock at t = 10.0 the
scheduled starts are 10.0, 10.5, 10.8 and the cursor ends at 11.2. -/
theorem c1_playback_gapless_schedule :
    (∀ (t : ℚ) (cs : List InboundAudio) (i : ℕ), i + 1 < cs.length →
       ((runScheduler t cs).1).getD i 0 + (cs.getD i default).duration ≤
         ((runScheduler t cs).1).getD (i + 1) 0) ∧
    runScheduler 0 [⟨10, 1/2⟩, ⟨10, 3/10⟩, ⟨10, 2/5⟩] =
      ([10, 21/2, 54/5], 56/5) :=
  ⟨fun t cs i h => runScheduler_mono cs t i h, by norm_num [runScheduler]⟩

/-- Witness for C1: the second of the three scenario chunks starts no
earlier than the first start plus the first duration. -/
theorem c1_playback_gapless_schedule_witness :
    ((runScheduler 0 [⟨10, 1/2⟩, ⟨10, 3/10⟩, ⟨10, 2/5⟩]).1).getD 0 0 +
        (([⟨10, 1/2⟩, ⟨10, 3/10⟩, ⟨10, 2/5⟩] : List InboundAudio).getD 0 default).duration ≤
      ((runScheduler 0 [⟨10, 1/2⟩, ⟨10, 3/10⟩, ⟨10, 2/5⟩]).1).getD 1 0 :=
  c1_playback_gapless_schedule.1 0 _ 0 (by norm_num)

/-- Claim C2: after the `interrupted` branch runs, every previously
pending chunk has been stopped, the pending set is empty, the cursor is
reset to zero, and the next chunk is scheduled to start at the current
device clock time; this holds for every prior scheduler state. -/
theorem c2_interrupted_flushes_playback (st : SchedState) :
    (handleInterrupted st).audioSources = [] ∧
    (handleInterrupted st).nextStartTime = 0 ∧
    (∀ s ∈ st.audioSources, s ∈ (handleInterrupted st).stoppedSources) ∧
    (∀ c : InboundAudio, 0 ≤ c.currentTime →
       ((runScheduler (handleInterrupted st).nextStartTime [c]).1).getD 0 0 =
         c.currentTime) := by
  refine ⟨rfl, rfl, fun s hs => List.mem_append_right _ hs, fun c hc => ?_⟩
  simp only [handleInterrupted, runScheduler, List.getD_cons_zero]
  exact max_eq_right hc

/-- Witness for C2: a scheduler state with two chunks currently playing
and a non-zero cursor; both chunks end up stopped, the set is cleared,
the cursor is zero, and a next chunk arriving at device clock 5 starts
at 5. -/
theorem c2_interrupted_flushes_playback_witness :
    (handleInterrupted ⟨17/10, [1, 2], []⟩).audioSources = [] ∧
    (handleInterrupted ⟨17/10, [1, 2], []⟩).nextStartTime = 0 ∧
    1 ∈ (handleInterrupted ⟨17/10, [1, 2], []⟩).stoppedSources ∧
    2 ∈ (handleInterrupted ⟨17/10, [1, 2], []⟩).stoppedSources ∧
    ((runScheduler (handleInterrupted ⟨17/10, [1, 2], []⟩).nextStartTime
        [⟨5, 1⟩]).1).getD 0 0 = 5 :=
  ⟨(c2_interrupted_flushes_playback _).1,
   (c2_interrupted_flushes_playback _).2.1,
   (c2_interrupted_flushes_playback _).2.2.1 1 (by simp),
   (c2_interrupted_flushes_playback _).2.2.1 2 (by simp),
   (c2_interrupted_flushes_playback _).2.2.2 ⟨5, 1⟩ (by norm_num)⟩

theorem dropWhile_all_iff {p : Char → Bool} {l : List Char} :
    (∀ x ∈ l.dropWhile p, p x = true) ↔ ∀ x ∈ l, p x = true := by
  constructor
  · intro h x hx
    rw [← List.takeWhile_append_dropWhile p l] at hx
    rcases List.mem_append.mp hx with h1 | h2
    · exact List.mem_takeWhile_imp h1
    · exact h x h2
  · intro h x hx
    exact h x ((List.dropWhile_sublist p).subset hx)

theorem jsTrim_eq_empty_iff (s : String) :
    jsTrim s = "" ↔ ∀ c ∈ s.data, isJsWhitespace c = true := by
  rw [jsTrim, String.ext_iff]
  show _ = ([] : List Char) ↔ _
  rw [List.reverse_eq_nil_iff, List.dropWhile_eq_nil_iff]
  constructor
  · intro h
    rw [← dropWhile_all_iff (p := isJsWhitespace)]
    intro x hx
    exact h x (List.mem_reverse.mpr hx)
  · intro h x hx
    exact h x ((List.dropWhile_sublist _).subset (List.mem_reverse.mp hx))

theorem jsTrim_ne_empty_iff (s : String) :
    jsTrim s ≠ "" ↔ ∃ c ∈ s.data, isJsWhitespace c = false := by
  rw [ne_eq, jsTrim_eq_empty_iff]
  push_neg
  simp [Bool.not_eq_true]

/-- Claim C3: one `turnComplete` event emits at most one user turn
followed by at most one assistant turn (so the emitted speaker sequence
is one of [], [user], [bot], [user, bot]), the assistant turn carries
the citation references collected during the turn, and immediately
afterwards both accumulators and the citation list are empty. -/
theorem c3_turn_complete_emits_once (st : AggState) :
    ((handleTurnComplete st).1.map Transcript.speaker = [] ∨
     (handleTurnComplete st).1.map Transcript.speaker = [.user] ∨
     (handleTurnComplete st).1.map Transcript.speaker = [.bot] ∨
     (handleTurnComplete st).1.map Transcript.speaker = [.user, .bot]) ∧
    (∀ t ∈ (handleTurnComplete st).1, t.speaker = .bot →
       t.groundingChunks =
         (if st.groundingChunksForTurn.filterMap chunkToRef ≠ [] then
            some (st.groundingChunksForTurn.filterMap chunkToRef)
          else none)) ∧
    (handleTurnComplete st).2.inputTranscription = "" ∧
    (handleTurnComplete st).2.outputTranscription = "" ∧
    (handleTurnComplete st).2.groundingChunksForTurn = [] := by
  by_cases ha : jsTrim st.inputTranscription = "" <;>
    by_cases hb : jsTrim st.outputTranscription = "" <;>
      simp [handleTurnComplete, ha, hb]

/-- Witness for C3: a turn with input " hi ", output " ok " and one maps
grounding chunk; the assistant turn is emitted after the user turn and
carries the collected citation. -/
theorem c3_turn_complete_emits_once_witness :
    (handleTurnComplete ⟨" hi ", " ok ", [.maps "u" "t"]⟩).1.map Transcript.speaker =
        [.user, .bot] ∧
    (⟨.bot, "ok", some [⟨"u", "t"⟩]⟩ : Transcript) ∈
      (handleTurnComplete ⟨" hi ", " ok ", [.maps "u" "t"]⟩).1 ∧
    (⟨.bot, "ok", some [⟨"u", "t"⟩]⟩ : Transcript).groundingChunks =
      (if ([GroundingChunk.maps "u" "t"].filterMap chunkToRef) ≠ [] then
         some ([GroundingChunk.maps "u" "t"].filterMap chunkToRef)
       else none) ∧
    (handleTurnComplete ⟨" hi ", " ok ", [.maps "u" "t"]⟩).2.groundingChunksForTurn = [] := by
  have hmem : (⟨.bot, "ok", some [⟨"u", "t"⟩]⟩ : Transcript) ∈
      (handleTurnComplete ⟨" hi ", " ok ", [.maps "u" "t"]⟩).1 := by decide
  refine ⟨?_, hmem,
    (c3_turn_complete_emits_once ⟨" hi ", " ok ", [.maps "u" "t"]⟩).2.1 _ hmem rfl,
    (c3_turn_complete_emits_once ⟨" hi ", " ok ", [.maps "u" "t"]⟩).2.2.2.2⟩
  rcases (c3_turn_complete_emits_once ⟨" hi ", " ok ", [.maps "u" "t"]⟩).1 with
    h | h | h | h <;> first | (exact h) | (exact absurd h (by decide))

/-- Claim C10 (implicit): at turn completion a user (resp. assistant)
turn is emitted iff the corresponding accumulator contains at least one
non-whitespace character, the emitted text is the accumulator with
leading and trailing whitespace removed, and a whitespace-only
accumulator produces no turn. -/
theorem c10_trim_gates_turn_emission (st : AggState) :
    ((∃ t ∈ (handleTurnComplete st).1, t.speaker = .user) ↔
       ∃ c ∈ st.inputTranscription.data, isJsWhitespace c = false) ∧
    (∀ t ∈ (handleTurnComplete st).1, t.speaker = .user →
       t.text = jsTrim st.inputTranscription) ∧
    ((∃ t ∈ (handleTurnComplete st).1, t.speaker = .bot) ↔
       ∃ c ∈ st.outputTranscription.data, isJsWhitespace c = false) ∧
    (∀ t ∈ (handleTurnComplete st).1, t.speaker = .bot →
       t.text = jsTrim st.outputTranscription) := by
  rw [← jsTrim_ne_empty_iff, ← jsTrim_ne_empty_iff]
  by_cases ha : jsTrim st.inputTranscription = "" <;>
    by_cases hb : jsTrim st.outputTranscription = "" <;>
      simp [handleTurnComplete, ha, hb]

/-- Witness for C10: with input accumulator " hi " (one non-whitespace
run) and a whitespace-only output accumulator "  ", a user turn with
text "hi" is emitted and no assistant turn is emitted. -/
theorem c10_trim_gates_turn_emission_witness :
    (∃ t ∈ (handleTurnComplete ⟨" hi ", "  ", []⟩).1, t.speaker = .user) ∧
    (⟨.user, "hi", none⟩ : Transcript).text = jsTrim " hi " ∧
    ¬ (∃ t ∈ (handleTurnComplete ⟨" hi ", "  ", []⟩).1, t.speaker = .bot) := by
  have hmem : (⟨.user, "hi", none⟩ : Transcript) ∈
      (handleTurnComplete ⟨" hi ", "  ", []⟩).1 := by decide
  refine ⟨(c10_trim_gates_turn_emission ⟨" hi ", "  ", []⟩).1.mpr ⟨'h', by decide, by decide⟩,
    (c10_trim_gates_turn_emission ⟨" hi ", "  ", []⟩).2.1 _ hmem rfl, ?_⟩
  intro hex
  have := (c10_trim_gates_turn_emission ⟨" hi ", "  ", []⟩).2.2.1.mp hex
  revert this
  decide

theorem getD_map {α β : Type} [Inhabited α] [Inhabited β] (f : α → β)
    (l : List α) (i : ℕ) (h : i < l.length) :
    (l.map f).getD i default = f (l.getD i default) := by
  induction l generalizing i with
  | nil => simp at h
  | cons a rest ih =>
    cases i with
    | zero => rfl
    | succ j =>
      simp only [List.map_cons, List.getD_cons_succ]
      exact ih j (by simpa using h)

theorem handleFunctionCall_id (now : String) (fc : FunctionCall) :
    (handleFunctionCall now fc).response.id = fc.id := by
  unfold handleFunctionCall
  split_ifs <;> rfl

theorem handleFunctionCall_fallback (now : String) (fc : FunctionCall)
    (h : fc.name ∉ knownToolNames) :
    (handleFunctionCall now fc).response.response.result = "Action completed." := by
  simp only [knownToolNames, List.mem_cons, List.not_mem_nil, or_false, not_or] at h
  obtain ⟨h1, h2, h3, h4⟩ := h
  unfold handleFunctionCall
  rw [if_neg h1, if_neg h2, if_neg h3, if_neg h4]

/-- Claim C4: a `toolCall` batch of N calls produces exactly one
`sendToolResponse` operation whose batch holds exactly N responses, the
i-th response's id equals the i-th call's id, and a call whose name
matches no known handler still gets the success-shaped fallback result
"Action completed.". -/
theorem c4_tool_batch_one_result_per_call (now : String) (calls : List FunctionCall)
    (incidents : List IncidentReport) (trs : List Transcript) :
    (dispatchToolCalls now calls incidents trs).sentBatches.length = 1 ∧
    ((dispatchToolCalls now calls incidents trs).sentBatches.getD 0 []).length =
      calls.length ∧
    (∀ i : ℕ, i < calls.length →
       (((dispatchToolCalls now calls incidents trs).sentBatches.getD 0 []).getD i
           default).id = (calls.getD i default).id) ∧
    (∀ i : ℕ, i < calls.length → (calls.getD i default).name ∉ knownToolNames →
       (((dispatchToolCalls now calls incidents trs).sentBatches.getD 0 []).getD i
           default).response.result = "Action completed.") := by
  have hbatch : (dispatchToolCalls now calls incidents trs).sentBatches.getD 0 [] =
      calls.map (fun fc => (handleFunctionCall now fc).response) := by
    simp [dispatchToolCalls, List.map_map, Function.comp]
  refine ⟨rfl, ?_, fun i h => ?_, fun i h hn => ?_⟩
  · rw [hbatch, List.length_map]
  · rw [hbatch, getD_map _ _ _ h, handleFunctionCall_id]
  · rw [hbatch, getD_map _ _ _ h]
    exact handleFunctionCall_fallback now _ hn

/-- Witness for C4: a batch of two calls, the first with an unrecognized
name; two responses are sent in one batch, ids are preserved in order,
and the unknown call gets the fallback result. -/
theorem c4_tool_batch_one_result_per_call_witness :
    (dispatchToolCalls "T" [⟨"a", "mystery_tool", {}⟩, ⟨"b", "get_weather_update", {}⟩]
        [] []).sentBatches.length = 1 ∧
    ((dispatchToolCalls "T" [⟨"a", "mystery_tool", {}⟩, ⟨"b", "get_weather_update", {}⟩]
        [] []).sentBatches.getD 0 []).length = 2 ∧
    (((dispatchToolCalls "T" [⟨"a", "mystery_tool", {}⟩, ⟨"b", "get_weather_update", {}⟩]
        [] []).sentBatches.getD 0 []).getD 0 default).id = "a" ∧
    (((dispatchToolCalls "T" [⟨"a", "mystery_tool", {}⟩, ⟨"b", "get_weather_update", {}⟩]
        [] []).sentBatches.getD 0 []).getD 1 default).id = "b" ∧
    (((dispatchToolCalls "T" [⟨"a", "mystery_tool", {}⟩, ⟨"b", "get_weather_update", {}⟩]
        [] []).sentBatches.getD 0 []).getD 0 default).response.result =
      "Action completed." :=
  ⟨(c4_tool_batch_one_result_per_call "T" _ [] []).1,
   (c4_tool_batch_one_result_per_call "T" _ [] []).2.1,
   (c4_tool_batch_one_result_per_call "T" _ [] []).2.2.1 0 (by norm_num),
   (c4_tool_batch_one_result_per_call "T" _ [] []).2.2.1 1 (by norm_num),
   (c4_tool_batch_one_result_per_call "T" _ [] []).2.2.2 0 (by norm_num) (by decide)⟩

/-- Claim C5: dispatching the single call
`{id: "a", name: "record_safety_incident",
  arguments: {description: "rockfall", location: "tunnel B"}}`
appends exactly one incident record with that description, that
location and the current timestamp to the incident store, and sends the
response `{id: "a", response: {result: "Incident recorded successfully."}}`. -/
theorem c5_record_incident_scenario (now : String) (incidents : List IncidentReport)
    (trs : List Transcript) :
    (dispatchToolCalls now
        [⟨"a", "record_safety_incident", { description := "rockfall", location := "tunnel B" }⟩]
        incidents trs).incidentReports = incidents ++ [⟨"rockfall", "tunnel B", now⟩] ∧
    (dispatchToolCalls now
        [⟨"a", "record_safety_incident", { description := "rockfall", location := "tunnel B" }⟩]
        incidents trs).sentBatches =
      [[⟨"a", "record_safety_incident", ⟨"Incident recorded successfully."⟩⟩]] :=
  ⟨rfl, rfl⟩

/-- Claim C6 (code bug): the claim states the session ends in ERROR when
`start()` fails during startup.  The catch block (lines 409-413) does
set the error message and status ERROR and perform the full teardown
without ever passing through LISTENING — but it calls
`stopConversation()` after `setStatus(ERROR)`, and `stopConversation`'s
first statement sets the status to IDLE, so the state observed after
the failure path completes is IDLE, not ERROR. -/
theorem c6_start_failure_ends_idle_not_error (s : SessionState) (msg : String) :
    (startConversationFailure s msg).status = .IDLE ∧
    (startConversationFailure s msg).status ≠ .ERROR ∧
    (startConversationFailure s msg).error = some msg ∧
    (startConversationFailure s msg).audioSources = [] ∧
    (startConversationFailure s msg).sessionOpen = false ∧
    (startConversationFailure s msg).mediaStream = false ∧
    (startConversationFailure s msg).scriptProcessor = false ∧
    (startConversationFailure s msg).inputAudioContext = false ∧
    (startConversationFailure s msg).outputAudioContext = false ∧
    BotStatus.LISTENING ∉ startConversationFailureStatuses := by
  refine ⟨rfl, by simp [startConversationFailure, stopConversation], rfl, rfl, rfl, rfl,
    rfl, rfl, rfl, by decide⟩

/-- Claim C7: `stop()` takes the session to IDLE from any state and is
idempotent — running it twice equals running it once, and running it on
the pristine idle state changes nothing — and after any `stop()` the
pending set is empty, the cursor is zero, and the session handle,
microphone stream, script processor and both audio contexts are
released. -/
theorem c7_stop_idempotent_teardown (s : SessionState) :
    (stopConversation s).status = .IDLE ∧
    stopConversation (stopConversation s) = stopConversation s ∧
    stopConversation initialSessionState = initialSessionState ∧
    (stopConversation s).audioSources = [] ∧
    (stopConversation s).nextStartTime = 0 ∧
    (stopConversation s).sessionOpen = false ∧
    (stopConversation s).mediaStream = false ∧
    (stopConversation s).scriptProcessor = false ∧
    (stopConversation s).inputAudioContext = false ∧
    (stopConversation s).outputAudioContext = false := by
  refine ⟨rfl, ?_, by decide, rfl, rfl, rfl, rfl, rfl, rfl, rfl⟩
  simp [stopConversation]

/-- Claim C9: a transport close arriving while the session is LISTENING,
SPEAKING or CONNECTING (not preceded by a requested stop) moves the
session to ERROR, performs teardown and surfaces the unexpected-loss
message, whereas a close arriving after `stop()` (session already IDLE)
adds no error and leaves the session in IDLE. -/
theorem c9_unexpected_close_to_error :
    (∀ s : SessionState,
       s.status = .LISTENING ∨ s.status = .SPEAKING ∨ s.status = .CONNECTING →
         (handleClose s).status = .ERROR ∧
         (handleClose s).error = some "Connection lost unexpectedly." ∧
         (handleClose s).audioSources = [] ∧
         (handleClose s).sessionOpen = false ∧
         (handleClose s).mediaStream = false ∧
         (handleClose s).inputAudioContext = false ∧
         (handleClose s).outputAudioContext = false) ∧
    (∀ s : SessionState, handleClose (stopConversation s) = stopConversation s) := by
  constructor
  · intro s hs
    have hcond : s.status ≠ BotStatus.IDLE ∧ s.status ≠ BotStatus.ERROR := by
      rcases hs with h | h | h <;> rw [h] <;> exact ⟨by simp, by simp⟩
    rw [handleClose, if_pos hcond]
    exact ⟨rfl, rfl, rfl, rfl, rfl, rfl, rfl⟩
  · intro s
    rw [handleClose, if_neg]
    intro h
    exact h.1 rfl

/-- Witness for C9: a listening session with one playing chunk and all
resources held; the unexpected close ends in ERROR with the loss
message and the resources released, and a second close after the
teardown (session IDLE) changes nothing. -/
theorem c9_unexpected_close_to_error_witness :
    (handleClose ⟨.LISTENING, .neutral, none, 3, [7], [], some 1, true, true, true,
        true, true⟩).status = .ERROR ∧
    (handleClose ⟨.LISTENING, .neutral, none, 3, [7], [], some 1, true, true, true,
        true, true⟩).error = some "Connection lost unexpectedly." ∧
    (handleClose ⟨.LISTENING, .neutral, none, 3, [7], [], some 1, true, true, true,
        true, true⟩).mediaStream = false ∧
    handleClose (stopConversation ⟨.LISTENING, .neutral, none, 3, [7], [], some 1,
        true, true, true, true, true⟩) =
      stopConversation ⟨.LISTENING, .neutral, none, 3, [7], [], some 1, true, true,
        true, true, true⟩ :=
  ⟨(c9_unexpected_close_to_error.1 _ (Or.inl rfl)).1,
   (c9_unexpected_close_to_error.1 _ (Or.inl rfl)).2.1,
   (c9_unexpected_close_to_error.1 _ (Or.inl rfl)).2.2.2.2.1,
   c9_unexpected_close_to_error.2 _⟩

theorem ratTrunc_nonneg_of_nonneg {q : ℚ} (h : 0 ≤ q) : 0 ≤ ratTrunc q := by
  rw [ratTrunc, if_pos h]
  exact Int.floor_nonneg.mpr h

theorem toInt16_eq_self {n : ℤ} (h1 : -32768 ≤ n) (h2 : n ≤ 32767) :
    toInt16 n = n := by
  show (if 32768 ≤ n % 65536 then n % 65536 - 65536 else n % 65536) = n
  split <;> omega

/-- Claim C8 counterexample: at full-scale input x = 1.0 the capture
pipeline emits -32768 (16-bit wraparound of 32768), while the claimed
saturating conversion would emit 32767. -/
theorem c8_saturation_counterexample :
    floatToInt16Sample 1 = -32768 ∧ specSaturatedSample 1 = 32767 ∧
    floatToInt16Sample 1 ≠ specSaturatedSample 1 := by
  refine ⟨?_, ?_, ?_⟩ <;>
    norm_num [floatToInt16Sample, specSaturatedSample, ratTrunc, toInt16]

/-- Claim C8 as amended: the capture pipeline converts each sample by
truncation toward zero followed by 16-bit two's-complement wraparound
(ECMAScript ToInt16), not saturation: for -1 ≤ x < 1 the emitted sample
is exactly trunc(x·32768) and lies in [-32768, 32767], while the
full-scale input x = 1.0 wraps around to -32768 instead of clamping to
32767. -/
theorem c8_sample_conversion_wraps :
    (∀ x : ℚ, -1 ≤ x → x < 1 →
       floatToInt16Sample x = ratTrunc (x * 32768) ∧
       -32768 ≤ floatToInt16Sample x ∧ floatToInt16Sample x ≤ 32767) ∧
    floatToInt16Sample 1 = -32768 := by
  constructor
  · intro x hl hu
    have h1 : (-32768 : ℚ) ≤ x * 32768 := by nlinarith
    have h2 : x * 32768 < 32768 := by nlinarith
    have hlo : -32768 ≤ ratTrunc (x * 32768) := by
      rw [ratTrunc]
      split
      · calc (-32768 : ℤ) ≤ 0 := by norm_num
          _ ≤ ⌊x * 32768⌋ := Int.floor_nonneg.mpr (by assumption)
      · have : (-32768 : ℚ) ≤ (⌈x * 32768⌉ : ℚ) := le_trans h1 (Int.le_ceil _)
        exact_mod_cast this
    have hhi : ratTrunc (x * 32768) ≤ 32767 := by
      rw [ratTrunc]
      split
      · have : ⌊x * 32768⌋ < 32768 := by
          rw [Int.floor_lt]
          exact_mod_cast h2
        omega
      · have hneg : x * 32768 < 0 := by
          push_neg at *
          assumption
        have : ⌈x * 32768⌉ ≤ 0 := Int.ceil_le.mpr (by push_cast; linarith)
        omega
    have heq : floatToInt16Sample x = ratTrunc (x * 32768) := by
      rw [floatToInt16Sample, toInt16_eq_self hlo hhi]
    exact ⟨heq, by rw [heq]; exact hlo, by rw [heq]; exact hhi⟩
  · norm_num [floatToInt16Sample, ratTrunc, toInt16]

/-- Witness for C8: the in-range sample x = 1/2 converts without
wraparound to trunc(16384) = 16384, and x = 1.0 wraps to -32768. -/
theorem c8_sample_conversion_wraps_witness :
    floatToInt16Sample (1/2) = ratTrunc ((1/2 : ℚ) * 32768) ∧
    floatToInt16Sample 1 = -32768 :=
  ⟨(c8_sample_conversion_wraps.1 (1/2) (by norm_num) (by norm_num)).1,
   c8_sample_conversion_wraps.2⟩

end Safetybot
